import Mathlib

/-!
Verification of the two analytical notebooks in this repository over a
rational-number embedding: the Terraform methane cost model (cost function,
grid evaluation and unit conversion, unit-string validation) and the
greenhouse heating/cooling energy and cost chain. All arithmetic is
modelled over `ℚ`; each definition mirrors the corresponding Python
statement one-for-one.
-/

/-- Conversion constant from the notebook: kilograms of methane per
thousand cubic feet. -/
def CH4_KG_PER_KCF : ℚ := 19.17

/-- `terraform_cost` from the methane notebook: the cost of Terraform
methane in dollars per kilogram, as a function of the CO2 and H2 prices
in dollars per kilogram. -/
def terraform_cost (usd_per_kg_co2 : ℚ) (usd_per_kg_h2 : ℚ) : ℚ :=
  let kg_co2_per_kg_ch4 : ℚ := 2.74
  let kg_h2_per_kg_ch4 : ℚ := 0.251
  let cost_scale_factor : ℚ := 1.195
  let co2_cost := usd_per_kg_co2 * kg_co2_per_kg_ch4
  let h2_cost := usd_per_kg_h2 * kg_h2_per_kg_ch4
  let total_cost := (co2_cost + h2_cost) * cost_scale_factor
  total_cost

/-- The sample invocation from the notebook: `terraform_cost(78/1000, 0.89)`. -/
def res1 : ℚ := terraform_cost (78 / 1000) 0.89

/-- `np.linspace(start, stop, num)` with the default endpoint behaviour:
`num` evenly spaced values from `start` to `stop` inclusive. -/
def linspace (start : ℚ) (stop : ℚ) (num : ℕ) : List ℚ :=
  (List.range num).map (fun i => start + (stop - start) * i / ((num : ℚ) - 1))

/-- The x axis values of the grid: `np.linspace(78.0, 250, 5)`. -/
def x_axis_values : List ℚ := linspace 78 250 5

/-- The y axis values of the grid: `np.linspace(0.89, 2.5, 5)`. -/
def y_axis_values : List ℚ := linspace 0.89 2.5 5

/-- `np.meshgrid(xs, ys)`: returns the pair of matrices `(X, Y)` with
`X[i][j] = xs[j]` and `Y[i][j] = ys[i]`, each of shape
`(length ys, length xs)`. -/
def meshgrid (xs : List ℚ) (ys : List ℚ) : List (List ℚ) × List (List ℚ) :=
  (ys.map (fun _ => xs), ys.map (fun y => xs.map (fun _ => y)))

/-- The nested loop of `graph` that fills the matrix `Z`: for every cell,
divide the x value by 1000, apply `terraform_cost`, and rescale by
`CH4_KG_PER_KCF` exactly when the unit selector is `"kcf"`. -/
def buildZ (X : List (List ℚ)) (Y : List (List ℚ)) (units : String) : List (List ℚ) :=
  (X.zip Y).map (fun rowPair =>
    (rowPair.1.zip rowPair.2).map (fun cell =>
      let co2_price_per_kg := cell.1 / 1000
      let h2_price_per_kg := cell.2
      let cost_per_kg := terraform_cost co2_price_per_kg h2_price_per_kg
      if units = "kcf" then cost_per_kg * CH4_KG_PER_KCF else cost_per_kg))

/-- `graph` from the methane notebook, modelled as a fallible function:
it validates the unit selector against `{"kg", "kcf"}` before any grid
computation, and on success returns the computed matrix `Z` together with
the name of the image file it saves. The raised `ValueError` is modelled
as `Except.error`. -/
def graph (xs : List ℚ) (ys : List ℚ) (units : String) :
    Except String (List (List ℚ) × String) :=
  if units ∈ (["kg", "kcf"] : List String) then
    let XY := meshgrid xs ys
    let Z := buildZ XY.1 XY.2 units
    Except.ok (Z, "terraform_cost_" ++ units ++ ".png")
  else
    Except.error "units must be kg or kcf"

/-- A call to `graph` threaded through an explicit world state: the list of
image files written so far. A successful call appends the saved file name;
a failed call leaves the world unchanged. -/
def graphRun (world : List String) (xs : List ℚ) (ys : List ℚ) (units : String) :
    List String × Except String (List (List ℚ)) :=
  match graph xs ys units with
  | Except.ok p => (world ++ [p.2], Except.ok p.1)
  | Except.error e => (world, Except.error e)

/-- The cost matrix computed by `graph` on the notebook's axes for a given
unit selector (the empty matrix when validation fails). -/
def gridZ (units : String) : List (List ℚ) :=
  match graph x_axis_values y_axis_values units with
  | Except.ok p => p.1
  | Except.error _ => []

/-! Constants of the greenhouse notebook. -/

/-- BTU per degree hour per square foot (ASHRAE guideline constant). -/
def BTU_PER_DEGREE_HOUR_PER_SQFT : ℚ := 0.24

/-- kWh per BTU conversion factor. -/
def KWH_PER_BTU : ℚ := 0.000293071

/-- Greenhouse floor area in square feet. -/
def TYPICAL_SQFT : ℚ := 10000

/-- Greenhouse ceiling height in feet. -/
def TYPICAL_HEIGHT_FT : ℚ := 16

/-- Air changes per hour. -/
def AIR_CHANGES_PER_HOUR : ℚ := 1.5

/-- Air leakage factor. -/
def INFILTRATION_FACTOR : ℚ := 1.2

/-- Additional solar gain factor. -/
def GREENHOUSE_EFFECT_FACTOR : ℚ := 1.3

/-- Natural gas heating efficiency. -/
def HEATING_SYSTEM_COP : ℚ := 0.85

/-- AC system coefficient of performance. -/
def COOLING_SYSTEM_COP : ℚ := 2.5

/-- Natural gas price per kWh equivalent. -/
def NATURAL_GAS_PER_KWH : ℚ := 0.04

/-- Electricity price per kWh. -/
def ELECTRICITY_PER_KWH : ℚ := 0.12

/-! The greenhouse computation chain, statement by statement. -/

/-- Base energy needed per degree hour. -/
def baseEnergyPerDegreeHour : ℚ := BTU_PER_DEGREE_HOUR_PER_SQFT * TYPICAL_SQFT

/-- Volume and air-change effect, normalized to a typical 8 ft ceiling. -/
def volumeEffect : ℚ := TYPICAL_HEIGHT_FT * AIR_CHANGES_PER_HOUR / 8

/-- Energy adjusted for volume and infiltration. -/
def adjustedEnergy : ℚ := baseEnergyPerDegreeHour * volumeEffect * INFILTRATION_FACTOR

/-- Heating BTU per degree hour: adjusted energy corrected for the heating
system efficiency and for solar gain. -/
def heatingBtuPerDegreeHour : ℚ :=
  adjustedEnergy / HEATING_SYSTEM_COP / GREENHOUSE_EFFECT_FACTOR

/-- Cooling BTU per degree hour. -/
def coolingBtuPerDegreeHour : ℚ :=
  adjustedEnergy * GREENHOUSE_EFFECT_FACTOR / COOLING_SYSTEM_COP

/-- Heating kWh per degree hour. -/
def heatingKwhPerDegreeHour : ℚ := heatingBtuPerDegreeHour * KWH_PER_BTU

/-- Cooling kWh per degree hour. -/
def coolingKwhPerDegreeHour : ℚ := coolingBtuPerDegreeHour * KWH_PER_BTU

/-- Heating kWh per square foot per degree hour. -/
def heatingKwhPerSqft : ℚ := heatingKwhPerDegreeHour / TYPICAL_SQFT

/-- Cooling kWh per square foot per degree hour. -/
def coolingKwhPerSqft : ℚ := coolingKwhPerDegreeHour / TYPICAL_SQFT

/-- Heating kWh per square meter per degree hour. -/
def heatingKwhPerSqm : ℚ := heatingKwhPerDegreeHour / TYPICAL_SQFT * 10.7639

/-- Cooling kWh per square meter per degree hour. -/
def coolingKwhPerSqm : ℚ := coolingKwhPerDegreeHour / TYPICAL_SQFT * 10.7639

/-- Heating cost per degree hour in dollars. -/
def heatingCostPerDegreeHour : ℚ := heatingKwhPerDegreeHour * NATURAL_GAS_PER_KWH

/-- Cooling cost per degree hour in dollars. -/
def coolingCostPerDegreeHour : ℚ := coolingKwhPerDegreeHour * ELECTRICITY_PER_KWH

/-- Division that fails explicitly on a zero divisor, used to show the
greenhouse chain never divides by zero. -/
def checkedDiv (a : ℚ) (b : ℚ) : Option ℚ :=
  if b = 0 then none else some (a / b)

/-- The derived scalars of the greenhouse chain. -/
structure GreenhouseResults where
  heatingKwh : ℚ
  coolingKwh : ℚ
  heatingPerSqft : ℚ
  coolingPerSqft : ℚ
  heatingPerSqm : ℚ
  coolingPerSqm : ℚ
  heatingCost : ℚ
  coolingCost : ℚ
deriving DecidableEq

/-- The greenhouse computation chain with every division checked for a
zero divisor: it fails with `none` exactly when some division in the
notebook would divide by zero. -/
def greenhouseChainChecked : Option GreenhouseResults := do
  let base := BTU_PER_DEGREE_HOUR_PER_SQFT * TYPICAL_SQFT
  let vol ← checkedDiv (TYPICAL_HEIGHT_FT * AIR_CHANGES_PER_HOUR) 8
  let adjusted := base * vol * INFILTRATION_FACTOR
  let hOverCop ← checkedDiv adjusted HEATING_SYSTEM_COP
  let hBtu ← checkedDiv hOverCop GREENHOUSE_EFFECT_FACTOR
  let cBtu ← checkedDiv (adjusted * GREENHOUSE_EFFECT_FACTOR) COOLING_SYSTEM_COP
  let hKwh := hBtu * KWH_PER_BTU
  let cKwh := cBtu * KWH_PER_BTU
  let hSqft ← checkedDiv hKwh TYPICAL_SQFT
  let cSqft ← checkedDiv cKwh TYPICAL_SQFT
  let hSqm := hSqft * 10.7639
  let cSqm := cSqft * 10.7639
  some
    { heatingKwh := hKwh
      coolingKwh := cKwh
      heatingPerSqft := hSqft
      coolingPerSqft := cSqft
      heatingPerSqm := hSqm
      coolingPerSqm := cSqm
      heatingCost := hKwh * NATURAL_GAS_PER_KWH
      coolingCost := cKwh * ELECTRICITY_PER_KWH }

/-- The values of the greenhouse chain computed directly, without checks. -/
def greenhouseResults : GreenhouseResults :=
  { heatingKwh := heatingKwhPerDegreeHour
    coolingKwh := coolingKwhPerDegreeHour
    heatingPerSqft := heatingKwhPerSqft
    coolingPerSqft := coolingKwhPerSqft
    heatingPerSqm := heatingKwhPerSqm
    coolingPerSqm := coolingKwhPerSqm
    heatingCost := heatingCostPerDegreeHour
    coolingCost := coolingCostPerDegreeHour }

/-! Theorems for the claims. -/

/-- C1: for every pair of inputs, `terraform_cost` returns exactly the
fixed linear combination `(co2_price * 2.74 + h2_price * 0.251) * 1.195`,
a pure function of its two arguments. -/
theorem terraform_cost_is_fixed_linear_combination (co2_price h2_price : ℚ) :
    terraform_cost co2_price h2_price =
      (co2_price * 2.74 + h2_price * 0.251) * 1.195 := rfl

/-- C1 witness: the formula theorem instantiated at a concrete input. -/
theorem terraform_cost_is_fixed_linear_combination_witness :
    terraform_cost 2 3 = (2 * 2.74 + 3 * 0.251) * 1.195 :=
  terraform_cost_is_fixed_linear_combination 2 3

/-- C2 counterexample: the sample invocation `terraform_cost(78/1000, 0.89)`
does equal the documented formula, but its value `0.52234645` is more than
`0.01` above `0.5108`, so it is not approximately `0.5108`. -/
theorem res1_not_near_0_5108 :
    res1 = (0.078 * 2.74 + 0.89 * 0.251) * 1.195 ∧ 0.5108 + 1 / 100 < res1 := by
  constructor
  · norm_num [res1, terraform_cost]
  · norm_num [res1, terraform_cost]

/-- C2 amended: the sample invocation returns
`(0.078*2.74 + 0.89*0.251)*1.195 = 0.52234645`, approximately `0.5223`
dollars per kilogram. -/
theorem res1_exact_value :
    res1 = (0.078 * 2.74 + 0.89 * 0.251) * 1.195 ∧
      res1 = 52234645 / 100000000 ∧
      0.5223 - 1 / 10000 < res1 ∧ res1 < 0.5223 + 1 / 10000 := by
  refine ⟨?_, ?_, ?_, ?_⟩ <;> norm_num [res1, terraform_cost]

/-- C3 counterexample: with the notebook's constants, the heating energy
per degree hour is `2.2915...` kWh, more than `0.5` below the claimed
`2.98`, and the heating cost per degree hour is `0.09166...` dollars, more
than `0.02` below the claimed `0.119`. -/
theorem heating_not_near_spec_values :
    heatingKwhPerDegreeHour + 1 / 2 < 2.98 ∧
      heatingCostPerDegreeHour + 1 / 50 < 0.119 := by
  constructor <;>
    norm_num [heatingKwhPerDegreeHour, heatingCostPerDegreeHour,
      heatingBtuPerDegreeHour, adjustedEnergy, volumeEffect,
      baseEnergyPerDegreeHour, BTU_PER_DEGREE_HOUR_PER_SQFT, TYPICAL_SQFT,
      TYPICAL_HEIGHT_FT, AIR_CHANGES_PER_HOUR, INFILTRATION_FACTOR,
      GREENHOUSE_EFFECT_FACTOR, HEATING_SYSTEM_COP, KWH_PER_BTU,
      NATURAL_GAS_PER_KWH]

/-- C3 amended: with the notebook's constants, the heating energy per
degree hour is approximately `2.29` kWh (within half of the last printed
digit) and the heating cost per degree hour approximately `0.0917`
dollars. -/
theorem heating_actual_values :
    2.29 - 1 / 200 < heatingKwhPerDegreeHour ∧
      heatingKwhPerDegreeHour < 2.29 + 1 / 200 ∧
      0.0917 - 1 / 10000 < heatingCostPerDegreeHour ∧
      heatingCostPerDegreeHour < 0.0917 + 1 / 10000 := by
  refine ⟨?_, ?_, ?_, ?_⟩ <;>
    norm_num [heatingKwhPerDegreeHour, heatingCostPerDegreeHour,
      heatingBtuPerDegreeHour, adjustedEnergy, volumeEffect,
      baseEnergyPerDegreeHour, BTU_PER_DEGREE_HOUR_PER_SQFT, TYPICAL_SQFT,
      TYPICAL_HEIGHT_FT, AIR_CHANGES_PER_HOUR, INFILTRATION_FACTOR,
      GREENHOUSE_EFFECT_FACTOR, HEATING_SYSTEM_COP, KWH_PER_BTU,
      NATURAL_GAS_PER_KWH]

/-- C4: with the notebook's constants, the cooling energy per degree hour
is approximately `1.32` kWh (within rounding tolerance of the two printed
decimals) and the cooling cost per degree hour approximately `0.158`
dollars (within rounding tolerance of the three printed decimals). -/
theorem cooling_values_match :
    1.32 - 1 / 200 < coolingKwhPerDegreeHour ∧
      coolingKwhPerDegreeHour < 1.32 + 1 / 200 ∧
      0.158 - 1 / 2000 < coolingCostPerDegreeHour ∧
      coolingCostPerDegreeHour < 0.158 + 1 / 2000 := by
  refine ⟨?_, ?_, ?_, ?_⟩ <;>
    norm_num [coolingKwhPerDegreeHour, coolingCostPerDegreeHour,
      coolingBtuPerDegreeHour, adjustedEnergy, volumeEffect,
      baseEnergyPerDegreeHour, BTU_PER_DEGREE_HOUR_PER_SQFT, TYPICAL_SQFT,
      TYPICAL_HEIGHT_FT, AIR_CHANGES_PER_HOUR, INFILTRATION_FACTOR,
      GREENHOUSE_EFFECT_FACTOR, COOLING_SYSTEM_COP, KWH_PER_BTU,
      ELECTRICITY_PER_KWH]

/-- Helper: for any meshgrid matrices, the matrix filled in `"kcf"` mode
is the matrix filled in `"kg"` mode with every cell rescaled by
`CH4_KG_PER_KCF`. -/
theorem buildZ_kcf_eq_kg_scaled (X Y : List (List ℚ)) :
    buildZ X Y "kcf" = (buildZ X Y "kg").map (List.map (fun c => c * CH4_KG_PER_KCF)) := by
  unfold buildZ
  simp [List.map_map, Function.comp]

/-- Helper: for a valid unit selector, `gridZ` is the matrix built from
the meshgrid of the notebook's axes. -/
theorem gridZ_eq_buildZ (units : String) (h : units ∈ (["kg", "kcf"] : List String)) :
    gridZ units =
      buildZ (meshgrid x_axis_values y_axis_values).1
        (meshgrid x_axis_values y_axis_values).2 units := by
  simp [gridZ, graph, h]

/-- C5: on the notebook's evaluation grid, the matrix computed in `"kcf"`
mode is, cell for cell, the matrix computed in `"kg"` mode multiplied by
the fixed constant `CH4_KG_PER_KCF = 19.17`. -/
theorem kcf_grid_is_kg_grid_times_conversion :
    gridZ "kcf" = (gridZ "kg").map (List.map (fun c => c * CH4_KG_PER_KCF)) := by
  rw [gridZ_eq_buildZ "kcf" (by simp), gridZ_eq_buildZ "kg" (by simp),
    buildZ_kcf_eq_kg_scaled]

/-- C6: calling `graph` with any unit selector outside `{"kg", "kcf"}`
(for example `"lbs"`) fails with the validation error, no grid is
returned, and the world state is unchanged: no image file is written. -/
theorem graph_rejects_invalid_units (world : List String) (xs ys : List ℚ)
    (units : String) (hkg : units ≠ "kg") (hkcf : units ≠ "kcf") :
    graphRun world xs ys units = (world, Except.error "units must be kg or kcf") := by
  simp [graphRun, graph, hkg, hkcf]

/-- C6 witness: the validation theorem instantiated at the unit string
`"lbs"`, the notebook's axes, and a nonempty world state. -/
theorem graph_rejects_invalid_units_witness :
    graphRun ["terraform_cost_kg.png"] x_axis_values y_axis_values "lbs" =
      (["terraform_cost_kg.png"], Except.error "units must be kg or kcf") :=
  graph_rejects_invalid_units ["terraform_cost_kg.png"] x_axis_values y_axis_values
    "lbs" (by decide) (by decide)

/-- C7: for non-negative prices, `terraform_cost` is monotonically
non-decreasing in each argument independently, additive in each argument
(relative to the contribution of the other, fixed argument), and
homogeneous: scaling both inputs scales the output. -/
theorem terraform_cost_linear_and_monotone (a a' h h' c : ℚ)
    (_ha : 0 ≤ a) (_hh : 0 ≤ h) (_hc : 0 ≤ c) :
    (a ≤ a' → terraform_cost a h ≤ terraform_cost a' h) ∧
      (h ≤ h' → terraform_cost a h ≤ terraform_cost a h') ∧
      terraform_cost (a + a') h + terraform_cost 0 h =
        terraform_cost a h + terraform_cost a' h ∧
      terraform_cost a (h + h') + terraform_cost a 0 =
        terraform_cost a h + terraform_cost a h' ∧
      terraform_cost (c * a) (c * h) = c * terraform_cost a h := by
  simp only [terraform_cost]
  refine ⟨fun hle => by nlinarith, fun hle => by nlinarith, by ring, by ring, by ring⟩

/-- C7 witness: the linearity and monotonicity theorem instantiated at the
concrete prices `a = 1, a' = 2, h = 1, h' = 2, c = 3`. -/
theorem terraform_cost_linear_and_monotone_witness :
    (terraform_cost 1 1 ≤ terraform_cost 2 1) ∧
      (terraform_cost 1 1 ≤ terraform_cost 1 2) ∧
      terraform_cost (1 + 2) 1 + terraform_cost 0 1 =
        terraform_cost 1 1 + terraform_cost 2 1 ∧
      terraform_cost 1 (1 + 2) + terraform_cost 1 0 =
        terraform_cost 1 1 + terraform_cost 1 2 ∧
      terraform_cost (3 * 1) (3 * 1) = 3 * terraform_cost 1 1 := by
  have h := terraform_cost_linear_and_monotone 1 2 1 2 3
    (by norm_num) (by norm_num) (by norm_num)
  exact ⟨h.1 (by norm_num), h.2.1 (by norm_num), h.2.2.1, h.2.2.2.1, h.2.2.2.2⟩

/-- C8: both computations are deterministic and stateless: the result of a
`graph` call does not depend on the accumulated world state, repeating a
call with identical inputs yields an identical result, and the cost
function and the greenhouse chain are pure functions of their inputs and
constants. -/
theorem computations_deterministic_and_stateless (w w' : List String)
    (xs ys : List ℚ) (units : String) (a b : ℚ) :
    (graphRun w xs ys units).2 = (graphRun w' xs ys units).2 ∧
      (graphRun ((graphRun w xs ys units).1) xs ys units).2 =
        (graphRun w xs ys units).2 ∧
      terraform_cost a b = terraform_cost a b ∧
      greenhouseChainChecked = greenhouseChainChecked := by
  refine ⟨?_, ?_, rfl, rfl⟩ <;> cases hg : graph xs ys units <;> simp [graphRun, hg]

/-- Helper: the matrix built from the meshgrid of two axis lists has one
row per y value and one column per x value, each cell holding the cost at
`(x / 1000, y)`, rescaled in `"kcf"` mode. -/
theorem buildZ_meshgrid (xs ys : List ℚ) (units : String) :
    buildZ (meshgrid xs ys).1 (meshgrid xs ys).2 units =
      ys.map (fun y => xs.map (fun x =>
        if units = "kcf" then terraform_cost (x / 1000) y * CH4_KG_PER_KCF
        else terraform_cost (x / 1000) y)) := by
  unfold buildZ meshgrid
  rw [List.zip_map', List.map_map]
  refine List.map_congr_left (fun y _ => ?_)
  have hz : xs.zip (List.replicate xs.length y) = xs.map (fun x => (x, y)) := by
    induction xs with
    | nil => rfl
    | cons head tail ih => simp [List.replicate_succ, ih]
  simp [Function.comp, hz, List.map_map]

/-- C9: in `"kg"` mode, rows of the cost matrix are indexed by the H2
axis and columns by the CO2 axis, and every cell equals `terraform_cost`
applied to the CO2 axis value divided by 1000 and the H2 axis value. -/
theorem kg_grid_entry_formula :
    ∀ i < 5, ∀ j < 5,
      ((gridZ "kg").getD i []).getD j 0 =
        terraform_cost (x_axis_values.getD j 0 / 1000) (y_axis_values.getD i 0) := by
  have hg : gridZ "kg" =
      y_axis_values.map (fun y => x_axis_values.map (fun x =>
        terraform_cost (x / 1000) y)) := by
    rw [gridZ_eq_buildZ "kg" (by simp), buildZ_meshgrid]
    simp
  intro i hi j hj
  interval_cases i <;> interval_cases j <;>
    simp [hg, x_axis_values, y_axis_values, linspace, List.range_succ]

/-- C9 witness: the entry formula instantiated at row 1, column 2. -/
theorem kg_grid_entry_formula_witness :
    ((gridZ "kg").getD 1 []).getD 2 0 =
      terraform_cost (x_axis_values.getD 2 0 / 1000) (y_axis_values.getD 1 0) :=
  kg_grid_entry_formula 1 (by norm_num) 2 (by norm_num)

/-- C10: every division in the greenhouse chain has a nonzero constant
divisor, so the checked chain succeeds, returning exactly the directly
computed scalars, and every derived scalar is strictly positive. -/
theorem greenhouse_chain_total_and_positive :
    greenhouseChainChecked = some greenhouseResults ∧
      0 < greenhouseResults.heatingKwh ∧ 0 < greenhouseResults.coolingKwh ∧
      0 < greenhouseResults.heatingPerSqft ∧ 0 < greenhouseResults.coolingPerSqft ∧
      0 < greenhouseResults.heatingPerSqm ∧ 0 < greenhouseResults.coolingPerSqm ∧
      0 < greenhouseResults.heatingCost ∧ 0 < greenhouseResults.coolingCost := by
  refine ⟨?_, ?_, ?_, ?_, ?_, ?_, ?_, ?_, ?_⟩ <;>
    norm_num [greenhouseChainChecked, checkedDiv, greenhouseResults,
      heatingKwhPerDegreeHour, coolingKwhPerDegreeHour, heatingKwhPerSqft,
      coolingKwhPerSqft, heatingKwhPerSqm, coolingKwhPerSqm,
      heatingCostPerDegreeHour, coolingCostPerDegreeHour,
      heatingBtuPerDegreeHour, coolingBtuPerDegreeHour, adjustedEnergy,
      volumeEffect, baseEnergyPerDegreeHour, BTU_PER_DEGREE_HOUR_PER_SQFT,
      KWH_PER_BTU, TYPICAL_SQFT, TYPICAL_HEIGHT_FT, AIR_CHANGES_PER_HOUR,
      INFILTRATION_FACTOR, GREENHOUSE_EFFECT_FACTOR, HEATING_SYSTEM_COP,
      COOLING_SYSTEM_COP, NATURAL_GAS_PER_KWH, ELECTRICITY_PER_KWH]
